import Mathlib

/-!
Verification of the networks-project-mcp repository (TypeScript) against its
natural-language specification.  Each definition below is a shallow embedding
of one function of the source tree; asynchronous collaborators (the MCP SDK
client, child processes, the fetch API, the LLM completion call, JSON.parse)
are passed in as explicit outcome values, so that every embedded function is
a pure, executable Lean function of the code's inputs and of those outcomes.
-/

/-! ## SSE stream manager (packages/mcp-client, session/sseManager.ts)

The manager keeps a map from session id to the EventSource object of the
subscription.  For the lifecycle claims only the key set of that map matters,
so the registry is embedded as the list of session ids currently stored
(map keys, hence no duplicates).  handleSSEEvent embeds
SSEManager.handleSSEEvent: a switch on the event type string; in the source
only the two "_complete" cases look up the connection, close it and delete it
from activeSSEConnections, while every other case only renders UI output. -/

/-- Embeds the close-and-delete block that the source runs for a complete
event: look the session id up in the map, and when present close the
EventSource and delete the entry. -/
def closeIfPresent (conns : List String) (sessionId : String) : List String :=
  if conns.contains sessionId then conns.erase sessionId else conns

/-- Embeds SSEManager.handleSSEEvent, restricted to its effect on the
registry of active connections.  Display-only cases leave the registry
unchanged, exactly as in the source switch statement. -/
def handleSSEEvent (conns : List String) (sessionId : String)
    (eventType : String) : List String :=
  match eventType with
  | "connected" => conns
  | "traceroute_start" => conns
  | "traceroute_output" => conns
  | "traceroute_complete" => closeIfPresent conns sessionId
  | "traceroute_error" => conns
  | "traceroute_cancelled" => conns
  | "ping_start" => conns
  | "ping_output" => conns
  | "ping_complete" => closeIfPresent conns sessionId
  | "ping_error" => conns
  | "ping_cancelled" => conns
  | _ => conns

/-! ## Approval gate and the two approval-gated handlers
(packages/mcp-server: lib/sse.ts streamCommand, tools/geoIPLookup.ts)

The elicitation collaborator is embedded as an outcome value: either the
awaited call threw (Except.error with the stringified error) or it returned
an ElicitResult with an action tag and an optional content payload carrying
an optional approved flag. -/

inductive ElicitAction where
  | accept
  | decline
  | cancel
deriving DecidableEq

structure ElicitContent where
  approved : Option Bool
deriving DecidableEq

structure ElicitResult where
  action : ElicitAction
  content : Option ElicitContent
deriving DecidableEq

/-- Outcome of awaiting elicitationRequest: a thrown error (stringified) or
a returned decision. -/
abbrev ElicitOutcome := Except String ElicitResult

/-- Embeds the approval test of both handlers:
action === "accept" && content?.approved === true.
An absent content or an absent approved flag compares unequal to true. -/
def isApproved (r : ElicitResult) : Bool :=
  (r.action == ElicitAction.accept) &&
    (match r.content with
     | some c => c.approved == some true
     | none => false)

/-- One content item of a tool result; in the source every item is written
as an object with a type field (always "text") and a text field. -/
structure TextContent where
  type : String
  text : String
deriving DecidableEq

/-- A CallToolResult-shaped return value of the server-side handlers.
isError = none embeds an object literal with no isError property. -/
structure ToolResult where
  content : List TextContent
  isError : Option Bool
deriving DecidableEq

/-- Outcome of the fetch call in geoIPLookupTool.handler: response.ok with
the JSON body (already stringified with JSON.stringify(data, null, 2)),
a non-ok response, or a rejection of fetch or of response.json(). -/
inductive FetchOutcome where
  | ok (dataStringified : String)
  | httpError (status : Nat) (statusText : String)
  | threw (msg : String)
deriving DecidableEq

/-- Result of one run of geoIPLookupTool.handler together with whether the
external fetch call was attempted. -/
structure GeoIPRun where
  result : ToolResult
  fetchAttempted : Bool
deriving DecidableEq

/-- Embeds geoIPLookupTool.handler (tools/geoIPLookup.ts).  The outer
try/catch turns a throwing elicitation into the "Failed to request user
approval" error result; an approved decision runs fetch inside an inner
try/catch; any other decision returns the denial result without touching
fetch. -/
def geoIPLookupHandler (ip : String) (elicit : ElicitOutcome)
    (fetch : FetchOutcome) : GeoIPRun :=
  match elicit with
  | Except.error e =>
    let msg := "Failed to request user approval: " ++ e
    { result := { content := [⟨"text", msg⟩], isError := some true },
      fetchAttempted := false }
  | Except.ok r =>
    if isApproved r then
      match fetch with
      | FetchOutcome.ok data =>
        { result := { content := [⟨"text", data⟩], isError := none },
          fetchAttempted := true }
      | FetchOutcome.httpError status statusText =>
        let msg := "API request failed with status " ++ toString status
          ++ ": " ++ statusText
        { result := { content := [⟨"text", msg⟩], isError := some true },
          fetchAttempted := true }
      | FetchOutcome.threw m =>
        let msg := "Failed to fetch geolocation data: " ++ m
        { result := { content := [⟨"text", msg⟩], isError := some true },
          fetchAttempted := true }
    else
      let msg := "Request denied by user. IP geolocation lookup was not approved."
      { result := { content := [⟨"text", msg⟩], isError := some false },
        fetchAttempted := false }

/-- The observable behaviour of the spawned command and jc processes in
streamCommand, once approval succeeded: the stdout chunks of the command
(in arrival order), both exit codes (none embeds a null code), the
accumulated streams, and whether JSON.parse(jcStdout) succeeded (some s is
the pretty-printed stringification it resolves with). -/
structure ProcessRun where
  outputs : List String
  commandCode : Option Int
  jcCode : Option Int
  jcStdout : String
  jcStderr : String
  commandStderr : String
  jcParsed : Option String
deriving DecidableEq

/-- How the approved execution of streamCommand resolved: both processes
closed, or one of the two spawn error events fired first. -/
inductive SpawnOutcome where
  | completed (run : ProcessRun)
  | commandSpawnError (msg : String)
  | jcSpawnError (msg : String)
deriving DecidableEq

/-- One call of sendSSEEvent, recorded as the target session id and the
type field of the event object. -/
structure SSEEventSent where
  sessionId : String
  type : String
deriving DecidableEq

/-- Result of one run of streamCommand together with whether the command
process was spawned and the SSE events sent, in order. -/
structure StreamRun where
  result : ToolResult
  spawned : Bool
  events : List SSEEventSent
deriving DecidableEq

/-- Embeds the acceptableCodes local of streamCommand: exit code 0, plus 2
for ping. -/
def acceptableCodes (tool : String) : List Int :=
  if tool = "ping" then [0, 2] else [0]

/-- Embeds the template-literal rendering of a possibly-null exit code. -/
def jsCodeToString : Option Int → String
  | none => "null"
  | some n => toString n

/-- Embeds the checkCompletion closure of streamCommand: the branch on the
exit codes (commandCode ?? -1 against acceptableCodes, jcCode === 0), the
JSON.parse fallback on jc output, and the stderr-chained error message. -/
def checkCompletion (tool : String) (run : ProcessRun) : ToolResult :=
  let commandStdout := String.join run.outputs
  if (acceptableCodes tool).contains (run.commandCode.getD (-1))
      && (run.jcCode == some 0) then
    match run.jcParsed with
    | some parsed => { content := [⟨"text", parsed⟩], isError := none }
    | none => { content := [⟨"text", run.jcStdout⟩], isError := none }
  else if (acceptableCodes tool).contains (run.commandCode.getD (-1)) then
    { content := [⟨"text", commandStdout⟩], isError := none }
  else
    let errorMessage :=
      if run.commandStderr ≠ "" then run.commandStderr
      else if run.jcStderr ≠ "" then run.jcStderr
      else tool ++ " command failed with exit code "
        ++ jsCodeToString run.commandCode
    { content := [⟨"text", "Error: " ++ errorMessage⟩], isError := some true }

/-- Embeds streamCommand (lib/sse.ts): request approval; on a thrown
elicitation send the error event and return the approval-failure result; on
a decision that is not an approval send the cancelled event and return the
denial result without spawning; on approval send the start event, spawn,
stream one output event per stdout chunk, send the complete event when both
processes close, and resolve per checkCompletion (or per the spawn-error
handlers). -/
def streamCommand (tool commandString sessionId startEventType
    outputEventType completeEventType errorEventType cancelledEventType :
    String) (elicit : ElicitOutcome) (spawn : SpawnOutcome) : StreamRun :=
  match elicit with
  | Except.error e =>
    let msg := "Failed to request user approval: " ++ e
    { result := { content := [⟨"text", msg⟩], isError := some true },
      spawned := false,
      events := [⟨sessionId, errorEventType⟩] }
  | Except.ok r =>
    if isApproved r then
      match spawn with
      | SpawnOutcome.completed run =>
        let evs := ⟨sessionId, startEventType⟩ ::
          (run.outputs.map (fun _ => (⟨sessionId, outputEventType⟩ : SSEEventSent))
            ++ [⟨sessionId, completeEventType⟩])
        { result := checkCompletion tool run,
          spawned := true,
          events := evs }
      | SpawnOutcome.commandSpawnError m =>
        let msg := "Failed to execute " ++ tool ++ " command: " ++ m
        { result := { content := [⟨"text", msg⟩], isError := some true },
          spawned := true,
          events := [⟨sessionId, startEventType⟩, ⟨sessionId, errorEventType⟩] }
      | SpawnOutcome.jcSpawnError m =>
        let msg := "Failed to execute jc command: " ++ m
        { result := { content := [⟨"text", msg⟩], isError := some true },
          spawned := true,
          events := [⟨sessionId, startEventType⟩] }
    else
      let msg := "Request denied by user. Command execution was not approved."
      { result := { content := [⟨"text", msg⟩], isError := some false },
        spawned := false,
        events := [⟨sessionId, cancelledEventType⟩] }

/-! ## Tool Provider Handle: McpServer.executeTool
(packages/mcp-client/src/core/mcpServer.ts)

The SDK call client.callTool is embedded as an oracle from the attempt
number to its outcome: a raw CallToolResult or a thrown error
(stringified).  The source's while loop (attempt from 0 while
attempt < retries, incrementing attempt on error) is embedded with the
remaining fuel (retries - attempt) as the structural argument; the pair
returned carries the number of attempts the loop made. -/

/-- A raw CallToolResult as returned by the SDK before normalization;
content = none embeds a result object whose content property is absent. -/
structure RawCallToolResult where
  content : Option (List TextContent)
  isError : Option Bool
deriving DecidableEq

/-- Embeds the retry loop of McpServer.executeTool.  The first argument of
the recursion is the current attempt counter, the second the remaining
iterations (retries - attempt).  On a successful call a result without
content is normalized to an empty non-error result; on an error the loop
retries while attempt + 1 < retries and otherwise rethrows that error.
The fall-through "Failed to execute tool" throw is reached only when the
loop guard fails at entry (retries = 0). -/
def executeToolGo (oracle : Nat → Except String RawCallToolResult) :
    Nat → Nat → Except String RawCallToolResult × Nat
  | attempt, 0 => (Except.error "Failed to execute tool", attempt)
  | attempt, remaining + 1 =>
    match oracle attempt with
    | Except.ok result =>
      match result.content with
      | none => (Except.ok { content := some [], isError := some false },
                 attempt + 1)
      | some _ => (Except.ok result, attempt + 1)
    | Except.error e =>
      match remaining with
      | 0 => (Except.error e, attempt + 1)
      | r + 1 => executeToolGo oracle (attempt + 1) (r + 1)

/-- Embeds McpServer.executeTool: the not-initialized guard, then the retry
loop started at attempt 0 with retries iterations available. -/
def executeTool (initialized : Bool) (serverName : String)
    (oracle : Nat → Except String RawCallToolResult) (retries : Nat) :
    Except String RawCallToolResult × Nat :=
  if initialized then executeToolGo oracle 0 retries
  else (Except.error ("Server " ++ serverName ++ " not initialized"), 0)

/-! ## LLM client: LLMClient.getResponse
(packages/mcp-client/src/core/llmClient.ts)

The provider call (getGroqResponse / getGeminiResponse) is embedded as an
oracle from the attempt number to its outcome.  maxRetries is
config.totalKeys.  The for loop breaks on a non-rate-limit error or on a
rate-limited last attempt, and the function then returns the composed
error string instead of throwing. -/

inductive AttemptOutcome where
  | success (text : String)
  | failure (errMsg : String)
deriving DecidableEq

/-- Character-list substring test used to embed String.prototype.includes. -/
def charsContain (pat : List Char) : List Char → Bool
  | [] => pat.isEmpty
  | c :: t => List.isPrefixOf pat (c :: t) || charsContain pat t

/-- Embeds errorMessage.includes(pat). -/
def strIncludes (hay pat : String) : Bool :=
  charsContain pat.toList hay.toList

/-- Embeds the isRateLimitError test of LLMClient.getResponse. -/
def isRateLimitError (msg : String) : Bool :=
  strIncludes msg "rate limit" || strIncludes msg "quota exceeded"
    || strIncludes msg "RESOURCE_EXHAUSTED" || strIncludes msg "429"
    || strIncludes msg "insufficient_quota"

/-- Embeds the template-literal rendering of lastError, which is null when
no attempt ran. -/
def stringifyLastError : Option String → String
  | none => "null"
  | some m => m

/-- Embeds the errorMessage local composed after the loop. -/
def llmFailureText (provider : String) (maxRetries : Nat)
    (lastError : Option String) : String :=
  "Error getting " ++ provider ++ " LLM response after trying "
    ++ toString maxRetries ++ " key(s): " ++ stringifyLastError lastError

/-- Embeds the string returned by getResponse when all retries failed. -/
def finalErrorMessage (provider : String) (maxRetries : Nat)
    (lastError : Option String) : String :=
  "I encountered an error: " ++ llmFailureText provider maxRetries lastError
    ++ ". Please try again or rephrase your request."

/-- Embeds the for loop of LLMClient.getResponse.  Arguments: the current
attempt counter, the lastError seen so far, and the remaining iterations
(maxRetries - attempt).  The source condition attempt < maxRetries - 1 is
remaining > 1 here, i.e. the successor pattern with remaining > 0.  The
returned pair carries the number of provider calls made. -/
def getResponseGo (provider : String) (maxRetries : Nat)
    (oracle : Nat → AttemptOutcome) :
    Nat → Option String → Nat → String × Nat
  | attempt, lastError, 0 =>
    (finalErrorMessage provider maxRetries lastError, attempt)
  | attempt, _, remaining + 1 =>
    match oracle attempt with
    | AttemptOutcome.success text => (text, attempt + 1)
    | AttemptOutcome.failure msg =>
      if isRateLimitError msg && remaining > 0 then
        getResponseGo provider maxRetries oracle (attempt + 1) (some msg)
          remaining
      else
        (finalErrorMessage provider maxRetries (some msg), attempt + 1)

/-- Embeds LLMClient.getResponse: maxRetries = totalKeys, loop from
attempt 0 with lastError = null. -/
def getResponse (provider : String) (totalKeys : Nat)
    (oracle : Nat → AttemptOutcome) : String × Nat :=
  getResponseGo provider totalKeys oracle 0 none totalKeys

/-! ## Session orchestrator: ChatSession.processLLMResponse
(packages/mcp-client, session/chatSession.ts)

JSON.parse is an external runtime call; it is embedded as an oracle value of
type Option JSValue: none when JSON.parse threw on the (fence-stripped)
reply, some v when it returned the value v.  JSValue embeds the values
JSON.parse can return (numbers as integers, which is exact on every value
the claims touch).  Property access, JS truthiness and string conversion
are embedded below exactly as the runtime defines them on such values. -/

inductive JSValue where
  | null
  | bool (b : Bool)
  | num (n : Int)
  | str (s : String)
  | arr (elems : List JSValue)
  | obj (fields : List (String × JSValue))

/-- Embeds JS property access on a parsed JSON value: a lookup on an object
(first binding wins, as in a parsed object), undefined (none) on anything
else.  Access on null throws; the caller handles that case. -/
def JSValue.getField : JSValue → String → Option JSValue
  | JSValue.obj fields, name => (fields.find? (fun f => f.1 = name)).map (fun f => f.2)
  | _, _ => none

/-- Embeds JS truthiness of a possibly-undefined value. -/
def truthy : Option JSValue → Bool
  | none => false
  | some JSValue.null => false
  | some (JSValue.bool b) => b
  | some (JSValue.num n) => n != 0
  | some (JSValue.str s) => s != ""
  | some (JSValue.arr _) => true
  | some (JSValue.obj _) => true

mutual

/-- Embeds JS string conversion of a parsed JSON value, as used by the
template literal in the no-server message. -/
def jsToString : JSValue → String
  | JSValue.null => "null"
  | JSValue.bool true => "true"
  | JSValue.bool false => "false"
  | JSValue.num n => toString n
  | JSValue.str s => s
  | JSValue.arr elems => jsArrToString elems
  | JSValue.obj _ => "[object Object]"

/-- Embeds Array.prototype.toString, which joins the elements with commas,
rendering null elements as the empty string. -/
def jsArrToString : List JSValue → String
  | [] => ""
  | [JSValue.null] => ""
  | [v] => jsToString v
  | JSValue.null :: rest => "," ++ jsArrToString rest
  | v :: rest => jsToString v ++ "," ++ jsArrToString rest

end

/-- Embeds the strict equality test tool.name === actualToolName of the
dispatch loop, where tool.name is a string and actualToolName is the parsed
tool field: strict equality of a string against a non-string is false. -/
def nameMatches (tv : JSValue) (name : String) : Bool :=
  match tv with
  | JSValue.str s => name = s
  | _ => false

/-- Outcome of McpServer.executeTool as seen by processLLMResponse: the
stringified successful result, or the stringified error that exhausted the
retries. -/
inductive ExecOutcome where
  | ok (stringified : String)
  | err (msg : String)
deriving DecidableEq

/-- One connected MCP server as the dispatch loop sees it: the tool names
its listTools() call reports, and the outcome of executeTool on it.  The
servers are assumed initialized (the session starts only after every
initialize() succeeded). -/
structure ServerModel where
  tools : List String
  exec : String → ExecOutcome

/-- Embeds the for-of loop over this.servers: find the first server whose
listTools() catalog matches the parsed tool value, carrying its position. -/
def dispatchFrom : List ServerModel → Nat → JSValue → Option (Nat × ServerModel)
  | [], _, _ => none
  | s :: rest, i, tv =>
    if s.tools.any (fun n => nameMatches tv n) then some (i, s)
    else dispatchFrom rest (i + 1) tv

/-- Observable outcome of one processLLMResponse call: the returned string,
the executeTool calls that were made (server position and tool name, in
order), and whether an SSE subscription was opened for a streaming tool. -/
structure ProcessOutcome where
  result : String
  executed : List (Nat × String)
  sseConnected : Bool
deriving DecidableEq

/-- Embeds ChatSession.processLLMResponse given the JSON.parse outcome on
the fence-stripped reply.  The surrounding try/catch maps a parse throw, or
the TypeError of reading a property of null, to returning the reply
unchanged.  A truthy tool field and truthy arguments field select the
dispatch path: streaming tool names get an SSE session opened first, then
the first server whose catalog contains the name executes the tool (the
progress logging on the result only writes to the console); with no match
the no-server message is returned.  Anything else returns the reply
unchanged. -/
def processParsed (servers : List ServerModel) (llmResponse : String)
    (parsed : Option JSValue) : ProcessOutcome :=
  match parsed with
  | none => { result := llmResponse, executed := [], sseConnected := false }
  | some JSValue.null =>
    { result := llmResponse, executed := [], sseConnected := false }
  | some v =>
    if truthy (v.getField "tool") && truthy (v.getField "arguments") then
      match v.getField "tool" with
      | none => { result := llmResponse, executed := [], sseConnected := false }
      | some tv =>
        let sse := match tv with
          | JSValue.str s => s = "network-traceroute" || s = "network-ping"
          | _ => false
        match dispatchFrom servers 0 tv with
        | some (i, srv) =>
          (match srv.exec (jsToString tv) with
           | ExecOutcome.ok s =>
             { result := "Tool execution result: " ++ s,
               executed := [(i, jsToString tv)], sseConnected := sse }
           | ExecOutcome.err m =>
             { result := "Error executing tool: " ++ m,
               executed := [(i, jsToString tv)], sseConnected := sse })
        | none =>
          { result := "No server found with tool: " ++ jsToString tv,
            executed := [], sseConnected := sse }
    else
      { result := llmResponse, executed := [], sseConnected := false }

/-! ## Configuration: credential pools and rotation
(packages/mcp-client/src/core/config.ts)

The Configuration class holds two ordered key lists and one rotation cursor
per provider; the llmApiKey getter reads the current provider's pool, fails
on an empty pool or an undefined/empty key, and otherwise returns the key
under the cursor and advances that provider's cursor by one modulo the pool
size.  The totalKeys getter only reads the pool size. -/

inductive LLMProvider where
  | gemini
  | groq
deriving DecidableEq

structure Configuration where
  geminiApiKeys : List String
  groqApiKeys : List String
  currentGeminiKeyIndex : Nat
  currentGroqKeyIndex : Nat
deriving DecidableEq

/-- The keyArray local of the getters: the pool of the selected provider. -/
def Configuration.keyArray (c : Configuration) (p : LLMProvider) : List String :=
  match p with
  | LLMProvider.groq => c.groqApiKeys
  | LLMProvider.gemini => c.geminiApiKeys

/-- The currentIndex local of the llmApiKey getter. -/
def Configuration.currentIndexOf (c : Configuration) (p : LLMProvider) : Nat :=
  match p with
  | LLMProvider.groq => c.currentGroqKeyIndex
  | LLMProvider.gemini => c.currentGeminiKeyIndex

/-- The cursor update at the end of the llmApiKey getter, which writes only
the selected provider's index field. -/
def Configuration.setIndexOf (c : Configuration) (p : LLMProvider) (i : Nat) :
    Configuration :=
  match p with
  | LLMProvider.groq => { c with currentGroqKeyIndex := i }
  | LLMProvider.gemini => { c with currentGeminiKeyIndex := i }

/-- The provider string as used in the error message of the getter. -/
def providerName : LLMProvider → String
  | LLMProvider.gemini => "gemini"
  | LLMProvider.groq => "groq"

/-- Embeds the get llmApiKey() accessor.  The provider (read from the
environment by the source) is passed explicitly.  An empty pool throws the
no-keys error; a key that is undefined (cursor out of range) or falsy (the
empty string) throws the invalid-state error before the cursor moves; a
valid key is returned and the cursor advances by one modulo the pool
length. -/
def Configuration.llmApiKey (c : Configuration) (p : LLMProvider) :
    Except String (String × Configuration) :=
  let keyArray := c.keyArray p
  let currentIndex := c.currentIndexOf p
  if keyArray.length = 0 then
    Except.error ("No " ++ (providerName p).toUpper
      ++ "_API_KEY environment variables found")
  else
    match keyArray.get? currentIndex with
    | none => Except.error "Invalid API key state - key is undefined"
    | some key =>
      if key = "" then
        Except.error "Invalid API key state - key is undefined"
      else
        Except.ok (key, c.setIndexOf p ((currentIndex + 1) % keyArray.length))

/-- Embeds the get totalKeys() accessor: it reads the pool length and
touches no state. -/
def Configuration.totalKeys (c : Configuration) (p : LLMProvider) : Nat :=
  (c.keyArray p).length

/-- One access to the configuration object: the rotating key getter or the
key-count getter, for the provider currently selected by the environment. -/
inductive ConfigOp where
  | getKey (p : LLMProvider)
  | getTotal (p : LLMProvider)

/-- State effect of one access: the key getter advances the cursor when it
returns a key and leaves the state alone when it throws; the count getter
is read-only. -/
def applyOp (c : Configuration) : ConfigOp → Configuration
  | ConfigOp.getKey p =>
    match c.llmApiKey p with
    | Except.ok kc => kc.2
    | Except.error _ => c
  | ConfigOp.getTotal _ => c

/-- State after a sequence of accesses. -/
def applyOps (c : Configuration) (ops : List ConfigOp) : Configuration :=
  ops.foldl applyOp c

/-- N successive reads of the key getter: the list of keys produced and the
final state.  A throw stops the sequence (a caller would observe the
exception). -/
def rotateKeys : Configuration → LLMProvider → Nat → List String × Configuration
  | c, _, 0 => ([], c)
  | c, p, n + 1 =>
    match c.llmApiKey p with
    | Except.error _ => ([], c)
    | Except.ok kc =>
      let r := rotateKeys kc.2 p n
      (kc.1 :: r.1, r.2)

/-- The range invariant of the two rotation cursors: within the pool for a
non-empty pool, pinned at zero for an empty pool (its initial value, which
no access moves). -/
def cursorInv (c : Configuration) (p : LLMProvider) : Prop :=
  (c.keyArray p = [] → c.currentIndexOf p = 0) ∧
    (c.keyArray p ≠ [] → c.currentIndexOf p < (c.keyArray p).length)

/-- The configuration invariant: both providers' cursors are in range. -/
def configInv (c : Configuration) : Prop :=
  cursorInv c LLMProvider.gemini ∧ cursorInv c LLMProvider.groq

/-! ## Theorems -/

/-- Helper: the close-and-delete block never grows the registry. -/
theorem closeIfPresent_subset (conns : List String) (sid : String) :
    closeIfPresent conns sid ⊆ conns := by
  unfold closeIfPresent
  split
  · exact List.erase_subset _ _
  · exact fun a h => h

/-- Helper: with distinct map keys, the close-and-delete block removes the
session id from the registry. -/
theorem closeIfPresent_not_mem (conns : List String) (sid : String)
    (hnodup : conns.Nodup) : sid ∉ closeIfPresent conns sid := by
  unfold closeIfPresent
  split
  · intro hmem
    exact ((List.Nodup.mem_erase_iff hnodup).mp hmem).1 rfl
  · next hcond =>
    intro hmem
    exact hcond (by simpa using hmem)

/-- C1 counterexample: ping_error and traceroute_cancelled are terminal
event kinds, yet the handler leaves the subscription in the
active-connection registry, so the claim that every terminal kind
(complete, error, or cancelled) closes and removes the subscription is
false on the code. -/
theorem C1_counterexample :
    handleSSEEvent ["s1"] "s1" "ping_error" = ["s1"]
    ∧ "s1" ∈ handleSSEEvent ["s1"] "s1" "ping_error"
    ∧ handleSSEEvent ["s1"] "s1" "traceroute_cancelled" = ["s1"]
    ∧ handleSSEEvent ["s1"] "s1" "ping_cancelled" = ["s1"]
    ∧ handleSSEEvent ["s1"] "s1" "traceroute_error" = ["s1"] := by
  refine ⟨rfl, ?_, rfl, rfl, rfl⟩
  decide

/-- C1 (amended): only the complete terminal kinds close the
subscription.  On ping_complete or traceroute_complete the session id is
removed from the active-connection registry (so later events for that id
have no registered subscription and are not delivered); the handler never
adds ids to the registry; and the error and cancelled terminal kinds leave
the registry unchanged. -/
theorem C1_theorem (conns : List String) (sessionId : String)
    (hnodup : conns.Nodup) :
    (sessionId ∉ handleSSEEvent conns sessionId "ping_complete"
      ∧ sessionId ∉ handleSSEEvent conns sessionId "traceroute_complete")
    ∧ (∀ eventType, handleSSEEvent conns sessionId eventType ⊆ conns)
    ∧ handleSSEEvent conns sessionId "ping_error" = conns
    ∧ handleSSEEvent conns sessionId "ping_cancelled" = conns
    ∧ handleSSEEvent conns sessionId "traceroute_error" = conns
    ∧ handleSSEEvent conns sessionId "traceroute_cancelled" = conns := by
  refine ⟨⟨?_, ?_⟩, ?_, rfl, rfl, rfl, rfl⟩
  · exact closeIfPresent_not_mem conns sessionId hnodup
  · exact closeIfPresent_not_mem conns sessionId hnodup
  · intro eventType
    unfold handleSSEEvent
    split
    all_goals first
      | exact closeIfPresent_subset conns sessionId
      | exact fun a h => h

/-- C1 witness: the amended theorem evaluated on a concrete registry. -/
theorem C1_witness :
    (("a" ∉ handleSSEEvent ["a", "b"] "a" "ping_complete"
      ∧ "a" ∉ handleSSEEvent ["a", "b"] "a" "traceroute_complete")
    ∧ (∀ eventType, handleSSEEvent ["a", "b"] "a" eventType ⊆ ["a", "b"])
    ∧ handleSSEEvent ["a", "b"] "a" "ping_error" = ["a", "b"]
    ∧ handleSSEEvent ["a", "b"] "a" "ping_cancelled" = ["a", "b"]
    ∧ handleSSEEvent ["a", "b"] "a" "traceroute_error" = ["a", "b"]
    ∧ handleSSEEvent ["a", "b"] "a" "traceroute_cancelled" = ["a", "b"]) :=
  C1_theorem ["a", "b"] "a" (by decide)

/-- C2: a decision that is not an approval (action not accept, or approved
flag not true) makes both approval-gated handlers return the denial result
with isError false, with no fetch attempted and no process spawned; the
streaming handler only sends the cancelled lifecycle event. -/
theorem C2_theorem (r : ElicitResult) (h : isApproved r = false)
    (ip : String) (fetch : FetchOutcome)
    (tool commandString sessionId startE outE compE errE cancE : String)
    (spawn : SpawnOutcome) :
    geoIPLookupHandler ip (Except.ok r) fetch =
      { result := { content := [⟨"text", "Request denied by user. IP geolocation lookup was not approved."⟩], isError := some false },
        fetchAttempted := false }
    ∧ streamCommand tool commandString sessionId startE outE compE errE cancE
        (Except.ok r) spawn =
      { result := { content := [⟨"text", "Request denied by user. Command execution was not approved."⟩], isError := some false },
        spawned := false,
        events := [⟨sessionId, cancE⟩] } := by
  constructor
  · simp [geoIPLookupHandler, h]
  · simp [streamCommand, h]

/-- C2 witness: a cancelled decision on concrete inputs. -/
theorem C2_witness :
    geoIPLookupHandler "8.8.8.8" (Except.ok ⟨ElicitAction.cancel, none⟩) (FetchOutcome.ok "data") =
      { result := { content := [⟨"text", "Request denied by user. IP geolocation lookup was not approved."⟩], isError := some false },
        fetchAttempted := false }
    ∧ streamCommand "ping" "ping -c 4 8.8.8.8" "sid" "ping_start" "ping_output" "ping_complete" "ping_error" "ping_cancelled"
        (Except.ok ⟨ElicitAction.cancel, none⟩)
        (SpawnOutcome.completed ⟨[], some 0, some 0, "", "", "", none⟩) =
      { result := { content := [⟨"text", "Request denied by user. Command execution was not approved."⟩], isError := some false },
        spawned := false,
        events := [⟨"sid", "ping_cancelled"⟩] } :=
  C2_theorem ⟨ElicitAction.cancel, none⟩ (by decide) "8.8.8.8"
    (FetchOutcome.ok "data") "ping" "ping -c 4 8.8.8.8" "sid" "ping_start"
    "ping_output" "ping_complete" "ping_error" "ping_cancelled"
    (SpawnOutcome.completed ⟨[], some 0, some 0, "", "", "", none⟩)

/-- C7 counterexample: when the elicitation call itself throws, the
handlers return isError true, while a declined decision returns isError
false, so the result of an approval-transport failure is distinguishable
from a decline by its error status, contradicting the claim. -/
theorem C7_counterexample :
    (geoIPLookupHandler "1.2.3.4" (Except.error "network failure") (FetchOutcome.ok "d")).result.isError = some true
    ∧ (geoIPLookupHandler "1.2.3.4" (Except.ok ⟨ElicitAction.decline, none⟩) (FetchOutcome.ok "d")).result.isError = some false
    ∧ (streamCommand "ping" "ping -c 4 h" "sid" "ps" "po" "pc" "pe" "pca" (Except.error "network failure") (SpawnOutcome.completed ⟨[], some 0, some 0, "", "", "", none⟩)).result.isError = some true := by
  refine ⟨rfl, ?_, rfl⟩
  rfl

/-- C7 (amended): a failure of the elicitation request itself is
fail-closed like a decline, in that no fetch is attempted and no process is
spawned, but the returned result reports the failure with isError true and
a "Failed to request user approval" message, so it is distinguishable from
a decline; the streaming handler additionally sends the error lifecycle
event. -/
theorem C7_theorem (e ip : String) (fetch : FetchOutcome)
    (tool commandString sessionId startE outE compE errE cancE : String)
    (spawn : SpawnOutcome) :
    (geoIPLookupHandler ip (Except.error e) fetch).fetchAttempted = false
    ∧ (geoIPLookupHandler ip (Except.error e) fetch).result.isError = some true
    ∧ (geoIPLookupHandler ip (Except.error e) fetch).result.content = [⟨"text", "Failed to request user approval: " ++ e⟩]
    ∧ (streamCommand tool commandString sessionId startE outE compE errE cancE (Except.error e) spawn).spawned = false
    ∧ (streamCommand tool commandString sessionId startE outE compE errE cancE (Except.error e) spawn).result.isError = some true
    ∧ (streamCommand tool commandString sessionId startE outE compE errE cancE (Except.error e) spawn).result.content = [⟨"text", "Failed to request user approval: " ++ e⟩]
    ∧ (streamCommand tool commandString sessionId startE outE compE errE cancE (Except.error e) spawn).events = [⟨sessionId, errE⟩] :=
  ⟨rfl, rfl, rfl, rfl, rfl, rfl, rfl⟩

/-- C3: on an initialized handle, executeTool with retries = 2 makes at
most 2 underlying attempts, and when both attempts fail it rethrows
exactly the second attempt's error. -/
theorem C3_theorem (serverName : String)
    (oracle : Nat → Except String RawCallToolResult) (e0 e1 : String)
    (h0 : oracle 0 = Except.error e0) (h1 : oracle 1 = Except.error e1) :
    executeTool true serverName oracle 2 = (Except.error e1, 2)
    ∧ ∀ (oracle2 : Nat → Except String RawCallToolResult),
        (executeTool true serverName oracle2 2).2 ≤ 2 := by
  constructor
  · simp [executeTool, executeToolGo, h0, h1]
  · intro oracle2
    rcases h0' : oracle2 0 with e | r
    · rcases h1' : oracle2 1 with e' | r'
      · simp [executeTool, executeToolGo, h0', h1']
      · cases hc : r'.content <;>
          simp [executeTool, executeToolGo, h0', h1', hc]
    · cases hc : r.content <;>
        simp [executeTool, executeToolGo, h0', hc]

/-- C3 witness: both attempts fail on a concrete oracle. -/
theorem C3_witness :
    executeTool true "network" (fun n => Except.error (if n = 0 then "boom0" else "boom1")) 2 = (Except.error "boom1", 2)
    ∧ ∀ (oracle2 : Nat → Except String RawCallToolResult),
        (executeTool true "network" oracle2 2).2 ≤ 2 :=
  C3_theorem "network" (fun n => Except.error (if n = 0 then "boom0" else "boom1"))
    "boom0" "boom1" rfl rfl

/-- C8: a successful underlying call whose result has no content property
makes executeTool return the normalized empty non-error result, counting
one attempt for that call, rather than failing. -/
theorem C8_theorem (serverName : String)
    (oracle : Nat → Except String RawCallToolResult) (iserr : Option Bool)
    (attempt fuel : Nat)
    (h : oracle attempt = Except.ok { content := none, isError := iserr }) :
    executeToolGo oracle attempt (fuel + 1)
        = (Except.ok { content := some [], isError := some false }, attempt + 1)
    ∧ (attempt = 0 → fuel = 1 →
        executeTool true serverName oracle 2
          = (Except.ok { content := some [], isError := some false }, 1)) := by
  constructor
  · simp [executeToolGo, h]
  · rintro rfl rfl
    simp [executeTool, executeToolGo, h]

/-- C8 witness: a concrete successful result without content. -/
theorem C8_witness :
    executeToolGo (fun _ => Except.ok ⟨none, some true⟩) 0 2
        = (Except.ok { content := some [], isError := some false }, 1)
    ∧ (0 = 0 → 1 = 1 →
        executeTool true "network" (fun _ => Except.ok ⟨none, some true⟩) 2
          = (Except.ok { content := some [], isError := some false }, 1)) :=
  C8_theorem "network" (fun _ => Except.ok ⟨none, some true⟩) (some true) 0 1 rfl

/-- Helper: when every reachable provider call fails, the retry loop of
getResponse ends in the composed error string (with some last error and
some attempt count). -/
theorem getResponseGo_all_failure (provider : String) (maxRetries : Nat)
    (oracle : Nat → AttemptOutcome)
    (hfail : ∀ i, i < maxRetries → ∃ m, oracle i = AttemptOutcome.failure m) :
    ∀ (fuel attempt : Nat) (lastErr : Option String),
      attempt + fuel = maxRetries →
      ∃ le n, getResponseGo provider maxRetries oracle attempt lastErr fuel
        = (finalErrorMessage provider maxRetries le, n) := by
  intro fuel
  induction fuel with
  | zero =>
    intro attempt lastErr _
    exact ⟨lastErr, attempt, rfl⟩
  | succ f ih =>
    intro attempt lastErr hsum
    obtain ⟨m, hm⟩ := hfail attempt (by omega)
    by_cases hc : (isRateLimitError m && decide (f > 0)) = true
    · obtain ⟨le, n, he⟩ := ih (attempt + 1) (some m) (by omega)
      refine ⟨le, n, ?_⟩
      rw [show getResponseGo provider maxRetries oracle attempt lastErr (f + 1)
          = getResponseGo provider maxRetries oracle (attempt + 1) (some m) f from
        by simp [getResponseGo, hm, hc]]
      exact he
    · refine ⟨some m, attempt + 1, ?_⟩
      simp [getResponseGo, hm, hc]

/-- Helper: the all-failures message of getResponse begins with the fixed
apology prefix. -/
theorem finalErrorMessage_prefix (p : String) (mr : Nat) (le : Option String) :
    ∃ rest, finalErrorMessage p mr le = "I encountered an error" ++ rest := by
  refine ⟨": " ++ llmFailureText p mr le
    ++ ". Please try again or rephrase your request.", ?_⟩
  unfold finalErrorMessage
  rw [show ("I encountered an error: " : String)
      = "I encountered an error" ++ ": " from rfl]
  rw [String.append_assoc, String.append_assoc, String.append_assoc]

/-- C10: getResponse returns a string on every failure path.  When all
reachable provider attempts fail the returned string begins with
"I encountered an error"; with zero configured keys no attempt is made and
the composed zero-key message is returned; and a non-rate-limit failure on
the first attempt ends the loop after exactly one attempt with the
composed message carrying that error. -/
theorem C10_theorem (provider : String) (totalKeys : Nat)
    (oracle : Nat → AttemptOutcome)
    (hfail : ∀ i, i < totalKeys → ∃ m, oracle i = AttemptOutcome.failure m) :
    (∃ rest, (getResponse provider totalKeys oracle).1
        = "I encountered an error" ++ rest)
    ∧ (totalKeys = 0 →
        getResponse provider totalKeys oracle = (finalErrorMessage provider 0 none, 0))
    ∧ (∀ m, oracle 0 = AttemptOutcome.failure m → isRateLimitError m = false →
        0 < totalKeys →
        getResponse provider totalKeys oracle
          = (finalErrorMessage provider totalKeys (some m), 1)) := by
  refine ⟨?_, ?_, ?_⟩
  · obtain ⟨le, n, he⟩ :=
      getResponseGo_all_failure provider totalKeys oracle hfail totalKeys 0 none
        (by omega)
    rw [getResponse, he]
    obtain ⟨rest, hr⟩ := finalErrorMessage_prefix provider totalKeys le
    exact ⟨rest, hr⟩
  · rintro rfl
    rfl
  · intro m hm hrl hpos
    obtain ⟨f, rfl⟩ : ∃ f, totalKeys = f + 1 := ⟨totalKeys - 1, by omega⟩
    simp [getResponse, getResponseGo, hm, hrl]

/-- C10 witness: zero configured keys, every oracle entry failing. -/
theorem C10_witness :
    (∃ rest, (getResponse "gemini" 0 (fun _ => AttemptOutcome.failure "429")).1
        = "I encountered an error" ++ rest)
    ∧ (0 = 0 →
        getResponse "gemini" 0 (fun _ => AttemptOutcome.failure "429")
          = (finalErrorMessage "gemini" 0 none, 0))
    ∧ (∀ m, (fun _ => AttemptOutcome.failure "429") 0 = AttemptOutcome.failure m →
        isRateLimitError m = false → 0 < 0 →
        getResponse "gemini" 0 (fun _ => AttemptOutcome.failure "429")
          = (finalErrorMessage "gemini" 0 (some m), 1)) :=
  C10_theorem "gemini" 0 (fun _ => AttemptOutcome.failure "429")
    (fun _ h => absurd h (by omega))

/-- Helper: when the dispatch loop finds no server, no server in the list
matches the parsed tool value. -/
theorem dispatchFrom_none_spec (tv : JSValue) :
    ∀ (servers : List ServerModel) (i : Nat),
      dispatchFrom servers i tv = none →
      ∀ srv ∈ servers, srv.tools.any (fun n => nameMatches tv n) = false := by
  intro servers
  induction servers with
  | nil =>
    intro i _ srv h
    cases h
  | cons s rest ih =>
    intro i hnone srv hmem
    unfold dispatchFrom at hnone
    split at hnone
    · cases hnone
    · next hs =>
      rcases List.mem_cons.mp hmem with rfl | hmem2
      · simpa using hs
      · exact ih (i + 1) hnone srv hmem2

/-- Helper: when the dispatch loop returns a server, that server sits at
the returned position and its catalog matches the parsed tool value. -/
theorem dispatchFrom_some_spec (tv : JSValue) :
    ∀ (servers : List ServerModel) (i j : Nat) (srv : ServerModel),
      dispatchFrom servers i tv = some (j, srv) →
      i ≤ j ∧ servers.get? (j - i) = some srv
        ∧ srv.tools.any (fun n => nameMatches tv n) = true := by
  intro servers
  induction servers with
  | nil =>
    intro i j srv h
    cases h
  | cons s rest ih =>
    intro i j srv h
    unfold dispatchFrom at h
    split at h
    · next hs =>
      cases h
      exact ⟨Nat.le_refl i, by simp, hs⟩
    · next hs =>
      obtain ⟨hij, hget, hany⟩ := ih (i + 1) j srv h
      refine ⟨by omega, ?_, hany⟩
      rw [show j - i = (j - (i + 1)) + 1 from by omega]
      simpa using hget

/-- C4: a reply parsed to an object with a (non-empty, string) tool name
and an arguments object is dispatched only to a server whose catalog
contains the name; when no active server's catalog contains it, nothing
executes and the no-server message is returned. -/
theorem C4_theorem (servers : List ServerModel) (reply name : String)
    (v : JSValue) (hname : name ≠ "")
    (htool : v.getField "tool" = some (JSValue.str name))
    (hargs : ∃ fields, v.getField "arguments" = some (JSValue.obj fields)) :
    (∀ e ∈ (processParsed servers reply (some v)).executed,
        e.2 = name ∧ ∃ srv, servers.get? e.1 = some srv ∧ name ∈ srv.tools)
    ∧ ((∀ srv ∈ servers, name ∉ srv.tools) →
        (processParsed servers reply (some v)).result
            = "No server found with tool: " ++ name
          ∧ (processParsed servers reply (some v)).executed = []) := by
  obtain ⟨fields, hargsEq⟩ := hargs
  cases v with
  | null => simp [JSValue.getField] at htool
  | bool b => simp [JSValue.getField] at htool
  | num n => simp [JSValue.getField] at htool
  | str s => simp [JSValue.getField] at htool
  | arr xs => simp [JSValue.getField] at htool
  | obj fs =>
    have htt : truthy (some (JSValue.str name)) = true := by
      simpa [truthy] using hname
    rcases hd : dispatchFrom servers 0 (JSValue.str name) with _ | ⟨i, srv⟩
    · have hred : processParsed servers reply (some (JSValue.obj fs))
          = { result := "No server found with tool: " ++ name,
              executed := [],
              sseConnected := (name = "network-traceroute" || name = "network-ping") } := by
        simp [processParsed, htool, hargsEq, htt, truthy, hd, jsToString, hname]
      rw [hred]
      refine ⟨?_, ?_⟩
      · intro e he
        cases he
      · intro _
        exact ⟨rfl, rfl⟩
    · obtain ⟨_, hget, hany⟩ := dispatchFrom_some_spec (JSValue.str name) servers 0 i srv hd
      rw [Nat.sub_zero] at hget
      have hmemtools : name ∈ srv.tools := by
        rcases List.any_eq_true.mp hany with ⟨x, hx, hmatch⟩
        have : x = name := by simpa [nameMatches] using hmatch
        exact this ▸ hx
      have hred : (processParsed servers reply (some (JSValue.obj fs))).executed
          = [(i, name)] := by
        rcases he : srv.exec name with s2 | m2 <;>
          simp [processParsed, htool, hargsEq, htt, truthy, hd, jsToString, he, hname]
      refine ⟨?_, ?_⟩
      · intro e he
        rw [hred] at he
        rcases List.mem_singleton.mp he with rfl
        exact ⟨rfl, srv, hget, hmemtools⟩
      · intro hnone
        exact absurd hmemtools (hnone srv (List.get?_mem hget))

/-- C4 witness: a catalog containing the requested tool on the second
server. -/
theorem C4_witness :
    (∀ e ∈ (processParsed
        [⟨["other-tool"], fun _ => ExecOutcome.ok "r0"⟩,
         ⟨["network-dnsLookup"], fun _ => ExecOutcome.ok "r1"⟩]
        "raw reply"
        (some (JSValue.obj [("tool", JSValue.str "network-dnsLookup"),
          ("arguments", JSValue.obj [])]))).executed,
        e.2 = "network-dnsLookup"
        ∧ ∃ srv, [(⟨["other-tool"], fun _ => ExecOutcome.ok "r0"⟩ : ServerModel),
            ⟨["network-dnsLookup"], fun _ => ExecOutcome.ok "r1"⟩].get? e.1 = some srv
          ∧ "network-dnsLookup" ∈ srv.tools)
    ∧ ((∀ srv ∈ [(⟨["other-tool"], fun _ => ExecOutcome.ok "r0"⟩ : ServerModel),
          ⟨["network-dnsLookup"], fun _ => ExecOutcome.ok "r1"⟩],
          "network-dnsLookup" ∉ srv.tools) →
        (processParsed
          [⟨["other-tool"], fun _ => ExecOutcome.ok "r0"⟩,
           ⟨["network-dnsLookup"], fun _ => ExecOutcome.ok "r1"⟩]
          "raw reply"
          (some (JSValue.obj [("tool", JSValue.str "network-dnsLookup"),
            ("arguments", JSValue.obj [])]))).result
            = "No server found with tool: " ++ "network-dnsLookup"
          ∧ (processParsed
            [⟨["other-tool"], fun _ => ExecOutcome.ok "r0"⟩,
             ⟨["network-dnsLookup"], fun _ => ExecOutcome.ok "r1"⟩]
            "raw reply"
            (some (JSValue.obj [("tool", JSValue.str "network-dnsLookup"),
              ("arguments", JSValue.obj [])]))).executed = []) :=
  C4_theorem
    [⟨["other-tool"], fun _ => ExecOutcome.ok "r0"⟩,
     ⟨["network-dnsLookup"], fun _ => ExecOutcome.ok "r1"⟩]
    "raw reply" "network-dnsLookup"
    (JSValue.obj [("tool", JSValue.str "network-dnsLookup"),
      ("arguments", JSValue.obj [])])
    (by decide) rfl ⟨[], rfl⟩

/-- C5 counterexample: the reply parses to an object whose arguments field
is the string "x", not an object, so by the claim the processor should
return the reply unchanged without executing anything; the code checks
only JS truthiness of the two fields, dispatches, and executes the tool on
server 0, returning the execution result instead of the reply. -/
theorem C5_counterexample :
    (processParsed [⟨["t"], fun _ => ExecOutcome.ok "res"⟩]
        "\x7b\"tool\": \"t\", \"arguments\": \"x\"\x7d"
        (some (JSValue.obj [("tool", JSValue.str "t"),
          ("arguments", JSValue.str "x")]))).result
      = "Tool execution result: res"
    ∧ (processParsed [⟨["t"], fun _ => ExecOutcome.ok "res"⟩]
        "\x7b\"tool\": \"t\", \"arguments\": \"x\"\x7d"
        (some (JSValue.obj [("tool", JSValue.str "t"),
          ("arguments", JSValue.str "x")]))).executed = [(0, "t")]
    ∧ (processParsed [⟨["t"], fun _ => ExecOutcome.ok "res"⟩]
        "\x7b\"tool\": \"t\", \"arguments\": \"x\"\x7d"
        (some (JSValue.obj [("tool", JSValue.str "t"),
          ("arguments", JSValue.str "x")]))).result
      ≠ "\x7b\"tool\": \"t\", \"arguments\": \"x\"\x7d" := by
  refine ⟨?_, ?_, ?_⟩ <;> decide

/-- C5 (amended): a reply whose parse throws, or parses to null, or parses
to a value whose tool field or arguments field is absent or JS-falsy, is
returned unchanged with no execution and no SSE connection; the code tests
only truthiness of the two fields, so a truthy non-object arguments value
is still dispatched as a tool call. -/
theorem C5_theorem (servers : List ServerModel) (reply : String)
    (parsed : Option JSValue)
    (h : parsed = none ∨ parsed = some JSValue.null
      ∨ ∃ v, parsed = some v ∧ (truthy (v.getField "tool") = false
          ∨ truthy (v.getField "arguments") = false)) :
    processParsed servers reply parsed
      = { result := reply, executed := [], sseConnected := false } := by
  rcases h with rfl | rfl | ⟨v, rfl, h⟩
  · rfl
  · rfl
  · rcases h with h | h <;> cases v <;> simp [processParsed, h]

/-- C5 witness: a parse failure returns the reply unchanged. -/
theorem C5_witness :
    processParsed [] "plain prose answer" none
      = { result := "plain prose answer", executed := [], sseConnected := false } :=
  C5_theorem [] "plain prose answer" none (Or.inl rfl)

/-- Helper: with r in cyclic range, the cursor position a + r wraps to slot
i exactly when r is the cyclic distance from a to i. -/
theorem mod_rotation_iff (K a i r : Nat) (hK : 0 < K) (ha : a < K) (hi : i < K)
    (hr : r < K) : (a + r) % K = i ↔ r = (i + K - a) % K := by
  have hsd : a + (i + K - a) = i + K := by omega
  have hdK : (a + (i + K - a)) % K = i := by
    rw [hsd, Nat.add_mod_right, Nat.mod_eq_of_lt hi]
  constructor
  · intro h
    have h2 : (a + r) % K = (a + (i + K - a)) % K := by rw [h, hdK]
    have h3 : r % K = (i + K - a) % K := Nat.ModEq.add_left_cancel' a h2
    rw [Nat.mod_eq_of_lt hr] at h3
    exact h3
  · intro h
    have h3 : r % K = (i + K - a) % K := by
      rw [Nat.mod_eq_of_lt hr]
      exact h
    have h2 : (a + r) % K = (a + (i + K - a)) % K := Nat.ModEq.add_left a h3
    rw [h2, hdK]

/-- Helper: among the first N rotation steps from cursor s, the number that
land on slot i is N / K plus one extra when the cyclic distance from s to i
falls below N % K. -/
theorem countP_range_mod (K s i : Nat) (hK : 0 < K) (hs : s < K) (hi : i < K) :
    ∀ N, (List.range N).countP (fun t => decide ((s + t) % K = i))
      = N / K + (if (i + K - s) % K < N % K then 1 else 0) := by
  intro N
  induction N with
  | zero => simp
  | succ n ih =>
    rw [List.range_succ, List.countP_append, ih]
    have hd : (i + K - s) % K < K := Nat.mod_lt _ hK
    have hiff : ((s + n) % K = i) ↔ (n % K = (i + K - s) % K) := by
      have h1 : (s + n) % K = (s + n % K) % K := by
        rw [Nat.add_mod s n K, Nat.mod_eq_of_lt hs]
      rw [h1]
      exact mod_rotation_iff K s i (n % K) hK hs hi (Nat.mod_lt _ hK)
    have hsingle : List.countP (fun t => decide ((s + t) % K = i)) [n]
        = if n % K = (i + K - s) % K then 1 else 0 := by
      simp [List.countP_cons, hiff]
    rw [hsingle]
    have hqr : n = K * (n / K) + n % K := (Nat.div_add_mod n K).symm
    have hrK : n % K < K := Nat.mod_lt _ hK
    by_cases hcase : n % K + 1 < K
    · have hmod1 : (n + 1) % K = n % K + 1 := by
        rw [show n + 1 = K * (n / K) + (n % K + 1) from by omega,
          Nat.mul_add_mod, Nat.mod_eq_of_lt hcase]
      have hdiv1 : (n + 1) / K = n / K := by
        rw [show n + 1 = K * (n / K) + (n % K + 1) from by omega,
          Nat.mul_add_div hK, Nat.div_eq_of_lt hcase, Nat.add_zero]
      rw [hmod1, hdiv1]
      split_ifs <;> omega
    · have hmod1 : (n + 1) % K = 0 := by
        rw [show n + 1 = K * (n / K) + K from by omega, Nat.mul_add_mod,
          Nat.mod_self]
      have hdiv1 : (n + 1) / K = n / K + 1 := by
        rw [show n + 1 = K * (n / K) + K from by omega, Nat.mul_add_div hK,
          Nat.div_self hK]
      rw [hmod1, hdiv1]
      split_ifs <;> omega

/-- Helper: the ceiling division (N + K - 1) / K is one above N / K when K
does not divide N. -/
theorem ceil_div_succ (N K : Nat) (hK : 0 < K) (hr : 0 < N % K) :
    (N + K - 1) / K = N / K + 1 := by
  have hdm : K * (N / K) + N % K = N := Nat.div_add_mod N K
  have hmlt : N % K < K := Nat.mod_lt _ hK
  have h2 : N % K - 1 + K * (N / K + 1) = N + K - 1 := by
    rw [Nat.mul_succ]
    omega
  rw [← h2, Nat.add_mul_div_left _ _ hK, Nat.div_eq_of_lt (by omega),
    Nat.zero_add]

/-- Helper: writing one provider's cursor leaves both key pools alone. -/
theorem keyArray_setIndexOf (c : Configuration) (p q : LLMProvider) (n : Nat) :
    (c.setIndexOf p n).keyArray q = c.keyArray q := by
  cases p <;> cases q <;> rfl

/-- Helper: writing a provider's cursor stores exactly that value. -/
theorem currentIndexOf_setIndexOf_self (c : Configuration) (p : LLMProvider)
    (n : Nat) : (c.setIndexOf p n).currentIndexOf p = n := by
  cases p <;> rfl

/-- Helper: writing one provider's cursor leaves the other provider's
cursor alone. -/
theorem currentIndexOf_setIndexOf_other (c : Configuration) (p q : LLMProvider)
    (n : Nat) (h : q ≠ p) :
    (c.setIndexOf p n).currentIndexOf q = c.currentIndexOf q := by
  cases p <;> cases q <;> first | rfl | exact absurd rfl h

/-- Helper: with the cursor in range and no falsy key in the pool, the
llmApiKey getter returns the key under the cursor and advances the cursor
by one modulo the pool size. -/
theorem llmApiKey_spec (c : Configuration) (p : LLMProvider)
    (hidx : c.currentIndexOf p < (c.keyArray p).length)
    (hkeys : ∀ k ∈ c.keyArray p, k ≠ "") :
    c.llmApiKey p = Except.ok ((c.keyArray p).getD (c.currentIndexOf p) "",
      c.setIndexOf p ((c.currentIndexOf p + 1) % (c.keyArray p).length)) := by
  have hlen : ¬ (c.keyArray p).length = 0 := by omega
  rcases hg : (c.keyArray p).get? (c.currentIndexOf p) with _ | key
  · rw [List.get?_eq_none] at hg
    omega
  · have hkne : key ≠ "" := hkeys _ (List.get?_mem hg)
    have hgd : (c.keyArray p).getD (c.currentIndexOf p) "" = key := by
      rw [List.getD_eq_get?, hg]
      rfl
    unfold Configuration.llmApiKey
    rw [if_neg hlen]
    simp only [hg, hgd]
    rw [if_neg hkne]

/-- Helper: the sequence of keys produced by N successive reads of the
rotating getter is the pool read at cursor, cursor + 1, ... modulo the pool
size. -/
theorem rotateKeys_map (p : LLMProvider) :
    ∀ (N : Nat) (c : Configuration),
      c.currentIndexOf p < (c.keyArray p).length →
      (∀ k ∈ c.keyArray p, k ≠ "") →
      (rotateKeys c p N).1 = (List.range N).map
        (fun t => (c.keyArray p).getD
          ((c.currentIndexOf p + t) % (c.keyArray p).length) "") := by
  intro N
  induction N with
  | zero =>
    intro c _ _
    rfl
  | succ n ih =>
    intro c hidx hkeys
    have hK : 0 < (c.keyArray p).length := by omega
    have hkey := llmApiKey_spec c p hidx hkeys
    have hka : (c.setIndexOf p ((c.currentIndexOf p + 1) % (c.keyArray p).length)).keyArray p
        = c.keyArray p := keyArray_setIndexOf c p p _
    have hci : (c.setIndexOf p ((c.currentIndexOf p + 1) % (c.keyArray p).length)).currentIndexOf p
        = (c.currentIndexOf p + 1) % (c.keyArray p).length :=
      currentIndexOf_setIndexOf_self c p _
    have hidx' : (c.setIndexOf p ((c.currentIndexOf p + 1) % (c.keyArray p).length)).currentIndexOf p
        < ((c.setIndexOf p ((c.currentIndexOf p + 1) % (c.keyArray p).length)).keyArray p).length := by
      rw [hci, hka]
      exact Nat.mod_lt _ hK
    have hkeys' : ∀ k ∈ (c.setIndexOf p ((c.currentIndexOf p + 1) % (c.keyArray p).length)).keyArray p, k ≠ "" := by
      rw [hka]
      exact hkeys
    have ihh := ih _ hidx' hkeys'
    rw [hci, hka] at ihh
    simp only [rotateKeys, hkey, ihh]
    rw [List.range_succ_eq_map, List.map_cons, List.map_map]
    refine congrArg₂ List.cons ?_ ?_
    · rw [Nat.add_zero, Nat.mod_eq_of_lt hidx]
    · refine List.map_congr_left ?_
      intro t _
      simp only [Function.comp]
      rw [Nat.mod_add_mod]
      rw [show c.currentIndexOf p + 1 + t = c.currentIndexOf p + (t + 1) from by omega]

/-- C6: with the cursor in range and a pool of honest (non-empty) keys,
N successive reads of the rotating getter return the keys at cursor,
cursor + 1, ... modulo the pool size K (cyclic order from the last cursor
position), each slot i is visited exactly floor(N / K) or ceiling(N / K)
times, and on an empty pool every read fails with the
no-keys-configured error. -/
theorem C6_theorem (c : Configuration) (p : LLMProvider) (N : Nat)
    (hidx : c.currentIndexOf p < (c.keyArray p).length)
    (hkeys : ∀ k ∈ c.keyArray p, k ≠ "") :
    ((rotateKeys c p N).1 = (List.range N).map
        (fun t => (c.keyArray p).getD
          ((c.currentIndexOf p + t) % (c.keyArray p).length) ""))
    ∧ (∀ i, i < (c.keyArray p).length →
        (List.range N).countP
            (fun t => decide ((c.currentIndexOf p + t) % (c.keyArray p).length = i))
          = N / (c.keyArray p).length
        ∨ (List.range N).countP
            (fun t => decide ((c.currentIndexOf p + t) % (c.keyArray p).length = i))
          = (N + (c.keyArray p).length - 1) / (c.keyArray p).length)
    ∧ (∀ c2 : Configuration, c2.keyArray p = [] →
        c2.llmApiKey p = Except.error ("No " ++ (providerName p).toUpper
          ++ "_API_KEY environment variables found")) := by
  have hK : 0 < (c.keyArray p).length := by omega
  refine ⟨rotateKeys_map p N c hidx hkeys, ?_, ?_⟩
  · intro i hi
    rw [countP_range_mod (c.keyArray p).length (c.currentIndexOf p) i hK hidx hi N]
    by_cases hlt : (i + (c.keyArray p).length - c.currentIndexOf p)
        % (c.keyArray p).length < N % (c.keyArray p).length
    · right
      rw [if_pos hlt, ceil_div_succ N (c.keyArray p).length hK (by omega)]
    · left
      rw [if_neg hlt, Nat.add_zero]
  · intro c2 h2
    unfold Configuration.llmApiKey
    rw [if_pos (by rw [h2]; rfl)]

/-- C6 witness: a two-key gemini pool read three times from cursor 0. -/
theorem C6_witness :
    ((rotateKeys ⟨["k1", "k2"], [], 0, 0⟩ LLMProvider.gemini 3).1
        = (List.range 3).map
          (fun t => ((⟨["k1", "k2"], [], 0, 0⟩ : Configuration).keyArray LLMProvider.gemini).getD
            (((⟨["k1", "k2"], [], 0, 0⟩ : Configuration).currentIndexOf LLMProvider.gemini + t)
              % ((⟨["k1", "k2"], [], 0, 0⟩ : Configuration).keyArray LLMProvider.gemini).length) ""))
    ∧ (∀ i, i < ((⟨["k1", "k2"], [], 0, 0⟩ : Configuration).keyArray LLMProvider.gemini).length →
        (List.range 3).countP
            (fun t => decide (((⟨["k1", "k2"], [], 0, 0⟩ : Configuration).currentIndexOf LLMProvider.gemini + t)
              % ((⟨["k1", "k2"], [], 0, 0⟩ : Configuration).keyArray LLMProvider.gemini).length = i))
          = 3 / ((⟨["k1", "k2"], [], 0, 0⟩ : Configuration).keyArray LLMProvider.gemini).length
        ∨ (List.range 3).countP
            (fun t => decide (((⟨["k1", "k2"], [], 0, 0⟩ : Configuration).currentIndexOf LLMProvider.gemini + t)
              % ((⟨["k1", "k2"], [], 0, 0⟩ : Configuration).keyArray LLMProvider.gemini).length = i))
          = (3 + ((⟨["k1", "k2"], [], 0, 0⟩ : Configuration).keyArray LLMProvider.gemini).length - 1)
            / ((⟨["k1", "k2"], [], 0, 0⟩ : Configuration).keyArray LLMProvider.gemini).length)
    ∧ (∀ c2 : Configuration, c2.keyArray LLMProvider.gemini = [] →
        c2.llmApiKey LLMProvider.gemini
          = Except.error ("No " ++ (providerName LLMProvider.gemini).toUpper
            ++ "_API_KEY environment variables found")) :=
  C6_theorem ⟨["k1", "k2"], [], 0, 0⟩ LLMProvider.gemini 3 (by decide) (by decide)

/-- Helper: a successful read of the rotating getter implies a non-empty
pool and a state change that only advances the read provider's cursor. -/
theorem llmApiKey_ok_state (c : Configuration) (p : LLMProvider) (k : String)
    (c2 : Configuration) (h : c.llmApiKey p = Except.ok (k, c2)) :
    (c.keyArray p).length ≠ 0
    ∧ c2 = c.setIndexOf p ((c.currentIndexOf p + 1) % (c.keyArray p).length) := by
  unfold Configuration.llmApiKey at h
  dsimp only [] at h
  split at h
  · cases h
  · next hlen =>
    split at h
    · cases h
    · split at h
      · cases h
      · cases h
        exact ⟨hlen, rfl⟩

/-- Helper: one configuration access preserves the cursor-range invariant
and never mutates the key pools. -/
theorem applyOp_preserves (c : Configuration) (op : ConfigOp)
    (h : configInv c) :
    configInv (applyOp c op)
    ∧ (applyOp c op).geminiApiKeys = c.geminiApiKeys
    ∧ (applyOp c op).groqApiKeys = c.groqApiKeys := by
  cases op with
  | getTotal p => exact ⟨h, rfl, rfl⟩
  | getKey p =>
    rcases hk : c.llmApiKey p with e | kc
    · simp only [applyOp, hk]
      all_goals exact ⟨h, trivial, trivial⟩
    · obtain ⟨hlen, hstate⟩ := llmApiKey_ok_state c p kc.1 kc.2 (by rw [hk])
      have hK : 0 < (c.keyArray p).length := by omega
      simp only [applyOp, hk, hstate]
      refine ⟨?_, ?_, ?_⟩
      · obtain ⟨hg, hq⟩ := h
        cases p
        · refine ⟨⟨?_, ?_⟩, ?_⟩
          · intro habs
            exact absurd (congrArg List.length habs) (by simpa using hlen)
          · intro _
            exact Nat.mod_lt _ hK
          · exact hq
        · refine ⟨hg, ?_, ?_⟩
          · intro habs
            exact absurd (congrArg List.length habs) (by simpa using hlen)
          · intro _
            exact Nat.mod_lt _ hK
      · cases p <;> rfl
      · cases p <;> rfl

/-- C9: across any sequence of accesses to the rotating key getter and the
key-count getter, both cursors stay in range (within the pool for a
non-empty pool, pinned at 0 for an empty pool), the key pools are never
mutated, the count getter changes no state at all, and a key read for one
provider leaves the other provider's cursor and both pools untouched. -/
theorem C9_theorem (c : Configuration) (ops : List ConfigOp)
    (h : configInv c) :
    (configInv (applyOps c ops)
      ∧ (applyOps c ops).geminiApiKeys = c.geminiApiKeys
      ∧ (applyOps c ops).groqApiKeys = c.groqApiKeys)
    ∧ (∀ p : LLMProvider, applyOp c (ConfigOp.getTotal p) = c)
    ∧ ((applyOp c (ConfigOp.getKey LLMProvider.gemini)).groqApiKeys = c.groqApiKeys
      ∧ (applyOp c (ConfigOp.getKey LLMProvider.gemini)).currentGroqKeyIndex = c.currentGroqKeyIndex
      ∧ (applyOp c (ConfigOp.getKey LLMProvider.gemini)).geminiApiKeys = c.geminiApiKeys)
    ∧ ((applyOp c (ConfigOp.getKey LLMProvider.groq)).geminiApiKeys = c.geminiApiKeys
      ∧ (applyOp c (ConfigOp.getKey LLMProvider.groq)).currentGeminiKeyIndex = c.currentGeminiKeyIndex
      ∧ (applyOp c (ConfigOp.getKey LLMProvider.groq)).groqApiKeys = c.groqApiKeys) := by
  have main : ∀ (ops2 : List ConfigOp) (c2 : Configuration), configInv c2 →
      configInv (applyOps c2 ops2)
      ∧ (applyOps c2 ops2).geminiApiKeys = c2.geminiApiKeys
      ∧ (applyOps c2 ops2).groqApiKeys = c2.groqApiKeys := by
    intro ops2
    induction ops2 with
    | nil => exact fun c2 h2 => ⟨h2, rfl, rfl⟩
    | cons op rest ih =>
      intro c2 h2
      have h1 := applyOp_preserves c2 op h2
      have hrest := ih (applyOp c2 op) h1.1
      exact ⟨hrest.1, hrest.2.1.trans h1.2.1, hrest.2.2.trans h1.2.2⟩
  refine ⟨main ops c h, fun p => rfl, ?_, ?_⟩
  · rcases hk : c.llmApiKey LLMProvider.gemini with e | kc
    · simp only [applyOp, hk]
      all_goals exact ⟨trivial, trivial, trivial⟩
    · obtain ⟨_, hstate⟩ :=
        llmApiKey_ok_state c LLMProvider.gemini kc.1 kc.2 (by rw [hk])
      simp only [applyOp, hk, hstate]
      all_goals refine ⟨?_, ?_, ?_⟩
      all_goals first
        | rfl
        | trivial
  · rcases hk : c.llmApiKey LLMProvider.groq with e | kc
    · simp only [applyOp, hk]
      all_goals exact ⟨trivial, trivial, trivial⟩
    · obtain ⟨_, hstate⟩ :=
        llmApiKey_ok_state c LLMProvider.groq kc.1 kc.2 (by rw [hk])
      simp only [applyOp, hk, hstate]
      all_goals refine ⟨?_, ?_, ?_⟩
      all_goals first
        | rfl
        | trivial

/-- C9 witness: a concrete configuration driven through a key read, a count
read, and a key read of the other provider. -/
theorem C9_witness :
    (configInv (applyOps ⟨["a"], [], 0, 0⟩
        [ConfigOp.getKey LLMProvider.gemini, ConfigOp.getTotal LLMProvider.groq,
         ConfigOp.getKey LLMProvider.groq])
      ∧ (applyOps ⟨["a"], [], 0, 0⟩
          [ConfigOp.getKey LLMProvider.gemini, ConfigOp.getTotal LLMProvider.groq,
           ConfigOp.getKey LLMProvider.groq]).geminiApiKeys
        = (⟨["a"], [], 0, 0⟩ : Configuration).geminiApiKeys
      ∧ (applyOps ⟨["a"], [], 0, 0⟩
          [ConfigOp.getKey LLMProvider.gemini, ConfigOp.getTotal LLMProvider.groq,
           ConfigOp.getKey LLMProvider.groq]).groqApiKeys
        = (⟨["a"], [], 0, 0⟩ : Configuration).groqApiKeys)
    ∧ (∀ p : LLMProvider,
        applyOp ⟨["a"], [], 0, 0⟩ (ConfigOp.getTotal p) = ⟨["a"], [], 0, 0⟩)
    ∧ ((applyOp ⟨["a"], [], 0, 0⟩ (ConfigOp.getKey LLMProvider.gemini)).groqApiKeys
        = (⟨["a"], [], 0, 0⟩ : Configuration).groqApiKeys
      ∧ (applyOp ⟨["a"], [], 0, 0⟩ (ConfigOp.getKey LLMProvider.gemini)).currentGroqKeyIndex
        = (⟨["a"], [], 0, 0⟩ : Configuration).currentGroqKeyIndex
      ∧ (applyOp ⟨["a"], [], 0, 0⟩ (ConfigOp.getKey LLMProvider.gemini)).geminiApiKeys
        = (⟨["a"], [], 0, 0⟩ : Configuration).geminiApiKeys)
    ∧ ((applyOp ⟨["a"], [], 0, 0⟩ (ConfigOp.getKey LLMProvider.groq)).geminiApiKeys
        = (⟨["a"], [], 0, 0⟩ : Configuration).geminiApiKeys
      ∧ (applyOp ⟨["a"], [], 0, 0⟩ (ConfigOp.getKey LLMProvider.groq)).currentGeminiKeyIndex
        = (⟨["a"], [], 0, 0⟩ : Configuration).currentGeminiKeyIndex
      ∧ (applyOp ⟨["a"], [], 0, 0⟩ (ConfigOp.getKey LLMProvider.groq)).groqApiKeys
        = (⟨["a"], [], 0, 0⟩ : Configuration).groqApiKeys) :=
  C9_theorem ⟨["a"], [], 0, 0⟩
    [ConfigOp.getKey LLMProvider.gemini, ConfigOp.getTotal LLMProvider.groq,
     ConfigOp.getKey LLMProvider.groq]
    (by constructor <;> constructor <;> intro h2 <;> simp_all [cursorInv, Configuration.keyArray, Configuration.currentIndexOf])
